import Mathlib

/-!
Verification development for the resilient bulk-write client layer of the
idataapi-transform repository (DataProcess/Config/ESConfig.py and
DataProcess/Config/ConfigUtil/WriterConfig.py).

The Python code is shallowly embedded: records (Python dicts of scalar
values) become ordered association lists, in-place mutation becomes
explicit state passing (a function that mutates its argument returns the
updated record), fallible operations return `Except PyErr`, and external
library primitives that the code merely calls (the MD5 digest, the JSON
deserializer of the HTTP layer) are abstracted as function parameters.
-/

namespace Idata

/-- Python exceptions that the embedded code can raise. -/
inductive PyErr where
  | keyError (key : String)
  | typeError
  | attributeError
  | valueError (msg : String)
  | exc (msg : String)
deriving DecidableEq, Repr

/-- Rendering of an exception, modelling Python str(e). -/
def pyErrStr : PyErr → String
  | .keyError k => k
  | .typeError => "TypeError"
  | .attributeError => "AttributeError"
  | .valueError m => m
  | .exc m => m

/-- A scalar field value of a record (string / number / boolean),
per the spec's Record data model. -/
inductive Value where
  | VStr (s : String)
  | VInt (n : Int)
  | VBool (b : Bool)
deriving DecidableEq, Repr

/-- Python truthiness of a scalar value. -/
def Value.truthy : Value → Bool
  | .VStr s => s ≠ ""
  | .VInt n => n ≠ 0
  | .VBool b => b

/-- A record: a Python dict from field name to scalar value, as an ordered
association list (Python dicts preserve insertion order). -/
abbrev Item := List (String × Value)

/-- Dict lookup: first binding of the key (keys are unique in a dict). -/
def getVal : Item → String → Option Value
  | [], _ => none
  | (k, v) :: rest, key => if k = key then some v else getVal rest key

/-- Python dict assignment `item[key] = v`: replaces the value in place if
the key is present (keeping its position), otherwise appends the key. -/
def setField : Item → String → Value → Item
  | [], key, v => [(key, v)]
  | (k, w) :: rest, key, v =>
    if k = key then (key, v) :: rest else (k, w) :: setField rest key v

/-- Single quote character, used by Python repr of strings. -/
def sq : String := String.singleton (Char.ofNat 39)

/-- Escaping used inside Python repr of a string (backslash and quote). -/
def reprEscape (s : String) : String :=
  String.join (s.data.map (fun c =>
    if c = Char.ofNat 92 then "\\\\"
    else if c = Char.ofNat 39 then "\\" ++ sq
    else String.singleton c))

/-- Python repr of a scalar value. -/
def pyReprValue : Value → String
  | .VStr s => sq ++ reprEscape s ++ sq
  | .VInt n => toString n
  | .VBool b => if b then "True" else "False"

/-- Python repr of the entries of a dict, comma separated. -/
def pyReprEntries : Item → String
  | [] => ""
  | [(k, v)] => sq ++ reprEscape k ++ sq ++ ": " ++ pyReprValue v
  | (k, v) :: e :: rest =>
      sq ++ reprEscape k ++ sq ++ ": " ++ pyReprValue v ++ ", " ++ pyReprEntries (e :: rest)

/-- Python str(item) for a dict: its repr. -/
def pyReprItem (it : Item) : String := "\x7b" ++ pyReprEntries it ++ "\x7d"

/-- UTF-8 encoding of one character (str.encode("utf8"), byte by byte). -/
def utf8Char (c : Char) : List Nat :=
  let n := c.toNat
  if n < 128 then [n]
  else if n < 2048 then [192 + n / 64, 128 + n % 64]
  else if n < 65536 then [224 + n / 4096, 128 + (n / 64) % 64, 128 + n % 64]
  else [240 + n / 262144, 128 + (n / 4096) % 64, 128 + (n / 64) % 64, 128 + n % 64]

/-- UTF-8 encoding of a string as a byte list. -/
def utf8 (s : String) : List Nat :=
  s.data.foldr (fun c acc => utf8Char c ++ acc) []

/-- The branch condition of default_id_hash_func:
`"appCode" in item and item["appCode"] and "id" in item and item["id"]`. -/
def idcond (item : Item) : Bool :=
  match getVal item "appCode" with
  | some v =>
    v.truthy && (match getVal item "id" with
                 | some w => w.truthy
                 | none => false)
  | none => false

/-- The bytes hashed by default_id_hash_func: `(item["appCode"] + "_" +
item["id"]).encode("utf8")` when the branch condition holds (string
concatenation raises TypeError on non-string operands), else
`str(item).encode("utf8")`. -/
def id_hash_bytes (item : Item) : Except PyErr (List Nat) :=
  if idcond item then
    match getVal item "appCode", getVal item "id" with
    | some (.VStr a), some (.VStr i) => .ok (utf8 (a ++ "_" ++ i))
    | _, _ => .error .typeError
  else .ok (utf8 (pyReprItem item))

/-- MyAsyncElasticsearch.default_id_hash_func.  `md5hex` abstracts
hashlib.md5(...).hexdigest() (an external library primitive); `now`
abstracts int(time.time()).  The function computes the digest input,
injects `createDate` into the record when absent (in-place mutation is
returned as the second component), and returns the hex digest. -/
def default_id_hash_func (md5hex : List Nat → String) (now : Int) (item : Item) :
    Except PyErr (String × Item) :=
  match id_hash_bytes item with
  | .error e => .error e
  | .ok value =>
    .ok (md5hex value,
         if (getVal item "createDate").isSome then item
         else setField item "createDate" (.VInt now))

/-- A parsed JSON document, as produced/consumed by json.dumps and the
Elasticsearch bulk endpoint. -/
inductive Json where
  | jNull
  | jBool (b : Bool)
  | jNum (n : Int)
  | jStr (s : String)
  | jArr (elems : List Json)
  | jObj (fields : List (String × Json))

/-- Escaping used by json.dumps inside a string (backslash and quote). -/
def jsonEscape (s : String) : String :=
  String.join (s.data.map (fun c =>
    if c = Char.ofNat 92 then "\\\\"
    else if c = Char.ofNat 34 then "\\\""
    else String.singleton c))

mutual
/-- json.dumps with its default separators (", " and ": "). -/
def pyJsonDumps : Json → String
  | .jNull => "null"
  | .jBool true => "true"
  | .jBool false => "false"
  | .jNum n => toString n
  | .jStr s => "\"" ++ jsonEscape s ++ "\""
  | .jArr xs => "[" ++ dumpArr xs ++ "]"
  | .jObj kvs => "\x7b" ++ dumpObj kvs ++ "\x7d"
termination_by j => sizeOf j

/-- Serialized array elements, comma separated. -/
def dumpArr : List Json → String
  | [] => ""
  | [x] => pyJsonDumps x
  | x :: y :: rest => pyJsonDumps x ++ ", " ++ dumpArr (y :: rest)
termination_by l => sizeOf l

/-- Serialized object entries, comma separated. -/
def dumpObj : List (String × Json) → String
  | [] => ""
  | [(k, v)] => "\"" ++ jsonEscape k ++ "\"" ++ ": " ++ pyJsonDumps v
  | (k, v) :: e :: rest =>
      "\"" ++ jsonEscape k ++ "\"" ++ ": " ++ pyJsonDumps v ++ ", " ++ dumpObj (e :: rest)
termination_by l => sizeOf l
end

/-- One `"key": value` entry of a serialized JSON object. -/
def objEntry (k : String) (v : Json) : String :=
  "\"" ++ jsonEscape k ++ "\"" ++ ": " ++ pyJsonDumps v

/-- A scalar record value as JSON. -/
def valueJson : Value → Json
  | .VStr s => .jStr s
  | .VInt n => .jNum n
  | .VBool b => .jBool b

/-- The JSON object entries of a record. -/
def item_json_fields (it : Item) : List (String × Json) :=
  it.map (fun p => (p.1, valueJson p.2))

/-- A record as a JSON object. -/
def itemJson (it : Item) : Json := .jObj (item_json_fields it)

/-- First binding of a key in a JSON object's field list. -/
def jsonLookup : List (String × Json) → String → Option Json
  | [], _ => none
  | (k, v) :: rest, key => if k = key then some v else jsonLookup rest key

/-- Python truthiness of a JSON value. -/
def jTruthy : Json → Bool
  | .jNull => false
  | .jBool b => b
  | .jNum n => n ≠ 0
  | .jStr s => s ≠ ""
  | .jArr xs => !xs.isEmpty
  | .jObj kvs => !kvs.isEmpty

/-- Python subscript `j[key]` with a string key: dict lookup (KeyError when
absent), TypeError on any non-dict. -/
def pyGetItem (j : Json) (key : String) : Except PyErr Json :=
  match j with
  | .jObj kvs =>
    match jsonLookup kvs key with
    | some v => .ok v
    | none => .error (.keyError key)
  | _ => .error .typeError

/-- Substring test, modelling Python `needle in haystack` on strings. -/
def str_has_sub (hay sub : String) : Bool := decide (1 < (hay.splitOn sub).length)

/-- Python membership `key in j`: key lookup on dicts, substring test on
strings, element test on lists, TypeError otherwise. -/
def pyIn (key : String) (j : Json) : Except PyErr Bool :=
  match j with
  | .jObj kvs => .ok (kvs.any (fun p => p.1 == key))
  | .jStr s => .ok (str_has_sub s key)
  | .jArr xs => .ok (xs.any (fun x => match x with | .jStr t => t == key | _ => false))
  | _ => .error .typeError

/-- Python `j.items()`: the entries of a dict, AttributeError otherwise. -/
def pyDictItems (j : Json) : Except PyErr (List (String × Json)) :=
  match j with
  | .jObj kvs => .ok kvs
  | _ => .error .attributeError

/-- Python iteration `for x in j`: list elements, string characters, dict
keys; TypeError otherwise. -/
def pyIterList (j : Json) : Except PyErr (List Json) :=
  match j with
  | .jArr xs => .ok xs
  | .jStr s => .ok (s.data.map (fun c => .jStr (String.singleton c)))
  | .jObj kvs => .ok (kvs.map (fun p => Json.jStr p.1))
  | _ => .error .typeError

/-- Python `len(j)`: length of a list / dict / string, TypeError otherwise. -/
def pyLen (j : Json) : Except PyErr Nat :=
  match j with
  | .jArr xs => .ok xs.length
  | .jObj kvs => .ok kvs.length
  | .jStr s => .ok s.length
  | _ => .error .typeError

/-- A caller-supplied id hash function: takes the record, may mutate it
(the returned record), returns the identifier, may raise. -/
abbrev HashFunc := Item → Except PyErr (String × Item)

/-- `if not actions: actions = "index"` — Python falsy check on the actions
argument (None or the empty string). -/
def action_kind : Option String → String
  | none => "index"
  | some s => if s = "" then "index" else s

/-- `if not id_hash_func: id_hash_func = self.default_id_hash_func`
(a supplied function object is always truthy). -/
def hash_choice (md5hex : List Nat → String) (now : Int) : Option HashFunc → HashFunc
  | some f => f
  | none => default_id_hash_func md5hex now

/-- The per-record annotation at the top of the add_dict_to_es loop:
`if app_code: item["appCode"] = app_code` and
`if create_date: item["createDate"] = create_date`
(both assignments mutate the record; the updated record is returned). -/
def annotate (app_code : Option String) (create_date : Option Int) (item : Item) : Item :=
  let i1 := match app_code with
    | some s => if s = "" then item else setField item "appCode" (.VStr s)
    | none => item
  match create_date with
  | some d => if d = 0 then i1 else setField i1 "createDate" (.VInt d)
  | none => i1

/-- The action descriptor line of one record:
`{actions: {"_index": indices, "_type": doc_type, "_id": id_hash_func(item)}}`. -/
def actionJson (akind indices doc_type hid : String) : Json :=
  .jObj [(akind, .jObj [("_index", .jStr indices), ("_type", .jStr doc_type),
                        ("_id", .jStr hid)])]

/-- The body-building loop of add_dict_to_es: annotates each record, runs
the id hash function on it (which may mutate it further and may raise —
outside the try block, so a raise propagates), and collects the
(action line, record line) pairs of the bulk envelope together with the
final (mutated) records. -/
def build_bulk_body (hf : HashFunc) (app_code : Option String) (create_date : Option Int)
    (akind indices doc_type : String) : List Item → Except PyErr (List (Json × Json) × List Item)
  | [] => .ok ([], [])
  | item :: rest =>
    let item1 := annotate app_code create_date item
    match hf item1 with
    | .error e => .error e
    | .ok (hid, item2) =>
      match build_bulk_body hf app_code create_date akind indices doc_type rest with
      | .error e => .error e
      | .ok (env, its) =>
        .ok ((actionJson akind indices doc_type hid, itemJson item2) :: env, item2 :: its)

/-- The newline-delimited bulk body:
`body += json.dumps(action) + "\n" + json.dumps(item) + "\n"` per record. -/
def body_string : List (Json × Json) → String
  | [] => ""
  | (a, d) :: rest => pyJsonDumps a ++ "\n" ++ pyJsonDumps d ++ "\n" ++ body_string rest

/-- The inner loop `for k, v in item.items()` of the partial-error branch:
counts an entry as a failure when `"error" in v` (logging
`json.dumps(v["error"])` when error_if_fail), as a success otherwise. -/
def count_entries (eif : Bool) : List (String × Json) → Nat → Nat → List String →
    List String × Except PyErr (Nat × Nat)
  | [], s, f, lg => (lg, .ok (s, f))
  | (_, v) :: rest, s, f, lg =>
    match pyIn "error" v with
    | .error e => (lg, .error e)
    | .ok true =>
      if eif then
        match pyGetItem v "error" with
        | .error e => (lg, .error e)
        | .ok ev => count_entries eif rest s (f + 1) (lg ++ [pyJsonDumps ev])
      else count_entries eif rest s (f + 1) lg
    | .ok false => count_entries eif rest (s + 1) f lg

/-- The outer loop `for item in r["items"]` of the partial-error branch. -/
def count_loop (eif : Bool) : List Json → Nat → Nat → List String →
    List String × Except PyErr (Nat × Nat)
  | [], s, f, lg => (lg, .ok (s, f))
  | x :: rest, s, f, lg =>
    match pyDictItems x with
    | .error e => (lg, .error e)
    | .ok entries =>
      match count_entries eif entries s f lg with
      | (lg2, .error e) => (lg2, .error e)
      | (lg2, .ok (s2, f2)) => count_loop eif rest s2 f2 lg2

/-- The response handling of add_dict_to_es: `if r["errors"]:` iterate the
per-item results counting successes/failures (optionally logging failures),
`else: success = len(r["items"])`.  Returns the log lines written so far and
either the (success, fail) counts or the exception raised. -/
def parse_bulk_response (eif : Bool) (r : Json) : List String × Except PyErr (Nat × Nat) :=
  match pyGetItem r "errors" with
  | .error e => ([], .error e)
  | .ok ev =>
    if jTruthy ev then
      match pyGetItem r "items" with
      | .error e => ([], .error e)
      | .ok iv =>
        match pyIterList iv with
        | .error e => ([], .error e)
        | .ok elems => count_loop eif elems 0 0 []
    else
      match pyGetItem r "items" with
      | .error e => ([], .error e)
      | .ok iv =>
        match pyLen iv with
        | .error e => ([], .error e)
        | .ok n => ([], .ok (n, 0))

/-- The two log lines of the `except Exception` branch of add_dict_to_es
(`logging.error(traceback.format_exc())` and the give-up message). -/
def exc_log (e : PyErr) : List String :=
  ["Traceback (most recent call last)", "elasticsearch Exception, give up: " ++ pyErrStr e]

/-- Whether the try block of add_dict_to_es raises: the transport request
fails, or the response handling fails. -/
def attempt_failed (t : String → Option Int → Except PyErr Json) (eif : Bool)
    (body : String) (tout : Option Int) : Bool :=
  match t body tout with
  | .error _ => true
  | .ok r =>
    match (parse_bulk_response eif r).2 with
    | .error _ => true
    | .ok _ => false

/-- The try/except of add_dict_to_es around the bulk POST and its response
handling: on success the counts and raw response, on any exception the
(None, None, None) sentinel; second component is the log output. -/
def bulk_attempt (t : String → Option Int → Except PyErr Json) (eif : Bool)
    (body : String) (tout : Option Int) :
    (Option Nat × Option Nat × Option Json) × List String :=
  match t body tout with
  | .error e => ((none, none, none), exc_log e)
  | .ok r =>
    match parse_bulk_response eif r with
    | (lg, .error e) => ((none, none, none), lg ++ exc_log e)
    | (lg, .ok (s, f)) => ((some s, some f, some r), lg)

/-- MyAsyncElasticsearch.add_dict_to_es.  `t` abstracts
self.transport.perform_request("POST", "/_bulk?pretty", body, timeout);
`md5hex`/`now` feed the default id hash function.  Returns the write
result, the final states of the caller's records, and the log output; a
raise of the id hash function (outside the try block) propagates as
`.error`. -/
def add_dict_to_es (md5hex : List Nat → String) (now : Int)
    (t : String → Option Int → Except PyErr Json)
    (indices doc_type : String) (items : List Item)
    (id_hash_func : Option HashFunc) (app_code : Option String) (actions : Option String)
    (create_date : Option Int) (error_if_fail : Bool) (timeout : Option Int) :
    Except PyErr ((Option Nat × Option Nat × Option Json) × List Item × List String) :=
  match build_bulk_body (hash_choice md5hex now id_hash_func) app_code create_date
      (action_kind actions) indices doc_type items with
  | .error e => .error e
  | .ok (env, its) =>
    let res := bulk_attempt t error_if_fail (body_string env) timeout
    .ok (res.1, its, res.2)

/-- The exception hierarchy of the elasticsearch client as seen by
MyAsyncTransport.main_loop: ConnectionTimeout (status_code "TIMEOUT"),
other ConnectionErrors (status_code "N/A", includes SSLError), and plain
TransportErrors carrying a numeric HTTP status. -/
inductive ESErr where
  | connTimeout
  | connError
  | transport (status : Int)
deriving DecidableEq, Repr

/-- `e.status_code == 404`: only a plain TransportError carries a numeric
status (connection errors carry the strings "TIMEOUT" / "N/A"). -/
def ESErr.is404 : ESErr → Bool
  | .transport s => s == 404
  | _ => false

/-- The retry classification of main_loop: ConnectionTimeout retries iff
retry_on_timeout, any other ConnectionError always retries, a
TransportError retries iff its status is in retry_on_status. -/
def retryable (rot : Bool) (ros : List Int) : ESErr → Bool
  | .connTimeout => rot
  | .connError => true
  | .transport s => ros.contains s

/-- What one pass of main_loop ends with. -/
inductive MainRet where
  | rawData (d : Option String)
  | parsed (j : Json)
  | headBool (b : Bool)
  | raised (e : ESErr)

/-- Whether main_loop ended by (re)raising an exception. -/
def MainRet.isRaised : MainRet → Bool
  | .raised _ => true
  | _ => false

/-- The `for attempt in range(self.max_retries + 1)` loop of
MyAsyncTransport.main_loop.  `conn i` abstracts the i-th call of
connection.perform_request (connection selection via get_connection and
the mark_dead / mark_live pool bookkeeping are not observable here);
`deser` abstracts self.deserializer.loads.  `fuel` is the number of loop
iterations still allowed (main_loop starts it at max_retries + 1, so the
`fuel = 1` iteration is the `attempt == self.max_retries` one that
re-raises instead of retrying).  Returns the outcome and the number of
perform_request invocations made. -/
def main_loop_go (rot : Bool) (ros : List Int) (method : String)
    (conn : Nat → Except ESErr (Int × Option String)) (deser : String → Json) :
    Nat → Nat → MainRet × Nat
  | 0, attempt => (.raised .connError, attempt)
  | fuel + 1, attempt =>
    match conn attempt with
    | .ok (status, data) =>
      if method = "HEAD" then
        (.headBool (decide (200 ≤ status) && decide (status < 300)), attempt + 1)
      else
        match data with
        | none => (.rawData none, attempt + 1)
        | some d =>
          if d = "" then (.rawData (some d), attempt + 1)
          else (.parsed (deser d), attempt + 1)
    | .error e =>
      if method = "HEAD" && e.is404 then (.headBool false, attempt + 1)
      else if retryable rot ros e then
        (if fuel = 0 then (.raised e, attempt + 1)
         else main_loop_go rot ros method conn deser fuel (attempt + 1))
      else (.raised e, attempt + 1)

/-- MyAsyncTransport.main_loop: run the attempt loop from attempt 0 with
max_retries + 1 allowed iterations. -/
def main_loop (rot : Bool) (ros : List Int) (method : String) (max_retries : Nat)
    (conn : Nat → Except ESErr (Int × Option String)) (deser : String → Json) : MainRet × Nat :=
  main_loop_go rot ros method conn deser (max_retries + 1) 0

/-- The first k attempts all fail with a retryable error (and none of them
hits the HEAD/404 early return). -/
def prefix_transient (rot : Bool) (ros : List Int) (method : String)
    (conn : Nat → Except ESErr (Int × Option String)) (errs : Nat → ESErr) (k : Nat) : Prop :=
  ∀ i, i < k → conn i = .error (errs i) ∧ retryable rot ros (errs i) = true ∧
    (method = "HEAD" → (errs i).is404 = false)

/-- Modelled from the spec: the inter-attempt backoff of the Retry Policy.
The adapter retry loops that actually sleep (the ES/Redis/MySQL writer
classes) are not among the sources here; only their configuration
(max_retry, random_min_sleep, random_max_sleep and the WriterConfig
docstrings "if request fail, random sleep at least random_min_sleep
seconds before request again") is.  Per the spec the delay is drawn
uniformly from [min_sleep, max_sleep]: random.uniform(a, b) is modelled by
inverse transform as a + u * (b - a) for a uniform sample u in [0, 1]. -/
def retry_sleep_duration (min_sleep max_sleep u : ℚ) : ℚ :=
  min_sleep + u * (max_sleep - min_sleep)

/-- The flags and path of the global ConnectorConfig main_config object
consulted by the writer-config constructors. -/
structure MainConfigFlags where
  has_es_configured : Bool
  has_redis_configured : Bool
  has_mysql_configured : Bool
  ini_path : String
deriving DecidableEq, Repr

/-- The redis pool handle created by aioredis.create_redis_pool.  `pid` is
a freshness tag: each construction consumes the next tag, so two handles
from distinct constructions compare unequal.  `encoding` is absent when
the compress flag deleted it from the kwargs. -/
structure RedisPool where
  pid : Nat
  host : String
  port : Int
  db : Int
  password : Option String
  encoding : Option String
  timeout : Int
  minsize : Nat
  maxsize : Nat
deriving DecidableEq, Repr

/-- The write method bound on pool creation (lpush / rpush / hset). -/
inductive RedisWriteMethod where
  | lpush
  | rpush
  | hset
deriving DecidableEq, Repr

/-- The mutable state of a WRedisConfig after __init__. -/
structure WRedisState where
  redis_pool_cli : Option RedisPool
  key : String
  host : String
  port : Int
  db : Int
  password : Option String
  encoding : String
  timeout : Int
  key_type : String
  name : String
  redis_write_method : Option RedisWriteMethod
  direction : String
  max_retry : Nat
  random_min_sleep : ℚ
  random_max_sleep : ℚ
  compress : Bool
  is_range : Bool
deriving DecidableEq, Repr

/-- WRedisConfig.__init__ (the filter_ callable is opaque and not
modelled).  Raises ValueError when redis is unconfigured and port <= 0,
when key_type is not LIST/HASH, or when encoding is falsy; otherwise
initializes every field, normalizing a falsy password to None. -/
def wredis_init (mc : MainConfigFlags) (key key_type : String) (host : String) (port db : Int)
    (password : Option String) (timeout : Int) (encoding direction : String)
    (max_retry : Nat) (rmin rmax : ℚ) (compress : Bool) : Except PyErr WRedisState :=
  if mc.has_redis_configured = false ∧ port ≤ 0 then
    .error (.valueError ("You must config redis before using Redis, Please edit configure file: "
      ++ mc.ini_path))
  else if ¬(key_type = "LIST" ∨ key_type = "HASH") then
    .error (.valueError "key_type must be one of (LIST,)")
  else if encoding = "" then
    .error (.valueError "You must specific encoding, since I am going to load each object in json format, and treat it as dictionary in python")
  else
    .ok { redis_pool_cli := none
          key := key
          host := host
          port := port
          db := db
          password := match password with
                      | some s => if s = "" then none else some s
                      | none => none
          encoding := encoding
          timeout := timeout
          key_type := key_type
          name := host ++ "_" ++ toString port ++ "->" ++ key
          redis_write_method := none
          direction := direction
          max_retry := max_retry
          random_min_sleep := rmin
          random_max_sleep := rmax
          compress := compress
          is_range := key_type == "LIST" }

/-- WRedisConfig.get_redis_pool_cli.  `w` is the fresh-pool counter: a
construction consumes the current value as the new pool's tag and
increments it, so `w` unchanged means no pool was constructed.  On first
call builds the pool (minsize 1 / maxsize 3, encoding dropped when
compress) and binds the write method (lpush/rpush by direction for LIST,
hset for HASH); later calls return the cached handle. -/
def get_redis_pool_cli (w : Nat) (c : WRedisState) : RedisPool × WRedisState × Nat :=
  match c.redis_pool_cli with
  | some p => (p, c, w)
  | none =>
    let p : RedisPool :=
      { pid := w, host := c.host, port := c.port, db := c.db, password := c.password,
        encoding := if c.compress then none else some c.encoding,
        timeout := c.timeout, minsize := 1, maxsize := 3 }
    let m := if c.key_type == "LIST"
             then (if c.direction == "L" then RedisWriteMethod.lpush else RedisWriteMethod.rpush)
             else RedisWriteMethod.hset
    (p, { c with redis_pool_cli := some p, redis_write_method := some m }, w + 1)

/-- The mysql pool handle created by aiomysql.create_pool; `pid` is the
freshness tag as for RedisPool. -/
structure MySQLPool where
  pid : Nat
  host : String
  port : Int
  user : String
  password : String
  db : String
  minsize : Nat
  maxsize : Nat
  charset : String
deriving DecidableEq, Repr

/-- The mutable state of a WMySQLConfig after __init__ (the filter_
callable and the event loop object are opaque and not modelled). -/
structure WMySQLState where
  table : String
  database : String
  max_retry : Nat
  random_min_sleep : ℚ
  random_max_sleep : ℚ
  name : String
  host : String
  port : Int
  user : String
  password : String
  encoding : String
  mysql_pool_cli : Option MySQLPool
  connection : Option Nat
  cursor : Option Nat
deriving DecidableEq, Repr

/-- WMySQLConfig.__init__.  Raises ValueError when mysql is unconfigured
and port <= 0, or when the aiomysql module is unavailable; otherwise
initializes every field, normalizing a falsy password to the empty
string. -/
def wmysql_init (mc : MainConfigFlags) (table : String) (max_retry : Nat) (rmin rmax : ℚ)
    (host : String) (port : Int) (user : String) (password : Option String)
    (database encoding : String) (aiomysql_available : Bool) : Except PyErr WMySQLState :=
  if mc.has_mysql_configured = false ∧ port ≤ 0 then
    .error (.valueError ("You must config mysql before using MySQL, Please edit configure file: "
      ++ mc.ini_path))
  else if aiomysql_available = false then
    .error (.valueError "module mysql disabled, please reinstall requirements with python version higher than 3.5.3 to enable it")
  else
    .ok { table := table
          database := database
          max_retry := max_retry
          random_min_sleep := rmin
          random_max_sleep := rmax
          name := table ++ "->" ++ database
          host := host
          port := port
          user := user
          password := match password with
                      | some s => s
                      | none => ""
          encoding := encoding
          mysql_pool_cli := none
          connection := none
          cursor := none }

/-- WMySQLConfig.get_mysql_pool_cli.  On first call builds the pool
(minsize 1 / maxsize 3) and eagerly acquires one connection and one cursor
from it; later calls return the cached handle.  `w` is the fresh-pool
counter as for get_redis_pool_cli. -/
def get_mysql_pool_cli (w : Nat) (c : WMySQLState) : MySQLPool × WMySQLState × Nat :=
  match c.mysql_pool_cli with
  | some p => (p, c, w)
  | none =>
    let p : MySQLPool :=
      { pid := w, host := c.host, port := c.port, user := c.user, password := c.password,
        db := c.database, minsize := 1, maxsize := 3, charset := c.encoding }
    (p, { c with mysql_pool_cli := some p, connection := some w, cursor := some w }, w + 1)

/-- WMySQLConfig.free_resource: when a pool exists, releases the held
connection back to the pool, closes the pool, schedules wait_closed (I/O
effects on the discarded pool object, not observable on the config), and
resets mysql_pool_cli, connection and cursor to None. -/
def free_resource (c : WMySQLState) : WMySQLState :=
  match c.mysql_pool_cli with
  | none => c
  | some _ => { c with mysql_pool_cli := none, connection := none, cursor := none }

/-- The state of a WESConfig after __init__ (the id_hash_func, filter_ and
expand callables and the es_client object are opaque and not modelled). -/
structure WESState where
  indices : String
  doc_type : String
  app_code : Option String
  actions : Option String
  create_date : Option Int
  error_if_fail : Bool
  timeout : Option Int
  max_retry : Nat
  random_min_sleep : ℚ
  random_max_sleep : ℚ
  auto_insert_createDate : Bool
deriving DecidableEq, Repr

/-- WESConfig.__init__: raises ValueError when elasticsearch hosts are not
configured, otherwise initializes every field. -/
def wes_init (mc : MainConfigFlags) (indices doc_type : String)
    (appCode actions : Option String) (createDate : Option Int) (error_if_fail : Bool)
    (timeout : Option Int) (max_retry : Nat) (rmin rmax : ℚ)
    (auto_insert_createDate : Bool) : Except PyErr WESState :=
  if mc.has_es_configured = false then
    .error (.valueError ("You must config es_hosts before using Elasticsearch, Please edit configure file: " ++ mc.ini_path))
  else
    .ok { indices := indices
          doc_type := doc_type
          app_code := appCode
          actions := actions
          create_date := createDate
          error_if_fail := error_if_fail
          timeout := timeout
          max_retry := max_retry
          random_min_sleep := rmin
          random_max_sleep := rmax
          auto_insert_createDate := auto_insert_createDate }

/-- Whether an Except result is a success. -/
def okB {α : Type} : Except PyErr α → Bool
  | .ok _ => true
  | .error _ => false

/-- The success count of an add_dict_to_es result. -/
def wr_success :
    Except PyErr ((Option Nat × Option Nat × Option Json) × List Item × List String) → Option Nat
  | .ok (wr, _, _) => wr.1
  | .error _ => none

/-- The final record states of an add_dict_to_es result. -/
def result_items :
    Except PyErr ((Option Nat × Option Nat × Option Json) × List Item × List String) →
    Except PyErr (List Item)
  | .ok (_, its, _) => .ok its
  | .error e => .error e

/-- The net effect of add_dict_to_es (with the default id hash function)
on one caller record: the appCode / createDate annotations, then the
createDate injection of the hash function when the field is still
absent. -/
def es_stamp (now : Int) (ac : Option String) (cd : Option Int) (it : Item) : Item :=
  let i1 := annotate ac cd it
  if (getVal i1 "createDate").isSome then i1 else setField i1 "createDate" (.VInt now)

/-- Whether a per-item result of a bulk response (a single-entry object
whose value is the operation result object) reports an error. -/
def entry_has_error : Json → Bool
  | .jObj [(_, .jObj fields)] => fields.any (fun p => p.1 == "error")
  | _ => false

/-- Number of per-item results reporting an error. -/
def count_fail_resp (l : List Json) : Nat := (l.filter entry_has_error).length

/-- Number of per-item results not reporting an error. -/
def count_success_resp (l : List Json) : Nat :=
  (l.filter (fun x => !entry_has_error x)).length

/-- The "error" value of an operation result object. -/
def err_val (fields : List (String × Json)) : Json :=
  (jsonLookup fields "error").getD .jNull

/-- The error log lines produced by the partial-error branch when
error_if_fail is set: one dumped error object per failing item. -/
def err_logs : List Json → List String
  | [] => []
  | .jObj [(_, .jObj fields)] :: rest =>
      (if fields.any (fun p => p.1 == "error") then [pyJsonDumps (err_val fields)] else [])
        ++ err_logs rest
  | _ :: rest => err_logs rest

/-- Every element is a single-entry object whose value is an object — the
shape of the per-item results of a bulk response. -/
def wf_resp_items : List Json → Bool
  | [] => true
  | .jObj [(_, .jObj _)] :: rest => wf_resp_items rest
  | _ => false

/-- `sub` occurs contiguously inside `hay`. -/
def str_contains (hay sub : String) : Prop :=
  ∃ pre post : List Char, hay.data = pre ++ sub.data ++ post

/-- Whether a JSON value is an action descriptor of kind `k` for the given
index and doc type. -/
def is_action_of (k ix dt : String) : Json → Bool
  | .jObj [(k2, .jObj [("_index", .jStr ix2), ("_type", .jStr dt2), ("_id", .jStr _)])] =>
      k2 == k && ix2 == ix && dt2 == dt
  | _ => false

/-- Every action line of a successfully built bulk envelope is an action
descriptor of kind `k` (vacuously true when building raised). -/
def all_actions_are (k ix dt : String) :
    Except PyErr (List (Json × Json) × List Item) → Bool
  | .ok (env, _) => env.all (fun p => is_action_of k ix dt p.1)
  | .error _ => true

/-- C1: For every record passed to the default identifier function: if the
record has both a non-empty appCode field and a non-empty id field, the
identifier returned equals the hex-encoded MD5 digest (md5hex) of the
UTF-8 bytes of "{appCode}_{id}"; otherwise it equals the digest of the
UTF-8 bytes of the record's full string representation; and the identifier
depends only on the record (in particular not on the clock value `now`),
so the same input record always yields the same identifier. -/
theorem claim1_default_id_hash (md5hex : List Nat → String) (now now2 : Int)
    (item it2 : Item) (a i : String)
    (ha : getVal item "appCode" = some (.VStr a)) (ha2 : a ≠ "")
    (hi : getVal item "id" = some (.VStr i)) (hi2 : i ≠ "") :
    (default_id_hash_func md5hex now item).map Prod.fst = .ok (md5hex (utf8 (a ++ "_" ++ i)))
    ∧ (idcond it2 = false →
        (default_id_hash_func md5hex now it2).map Prod.fst
          = .ok (md5hex (utf8 (pyReprItem it2))))
    ∧ (default_id_hash_func md5hex now it2).map Prod.fst
        = (default_id_hash_func md5hex now2 it2).map Prod.fst := by
  refine ⟨?_, ?_, ?_⟩
  · have hc : idcond item = true := by
      simp [idcond, ha, hi, Value.truthy, ha2, hi2]
    have hb : id_hash_bytes item = .ok (utf8 (a ++ "_" ++ i)) := by
      simp [id_hash_bytes, hc, ha, hi]
    simp [default_id_hash_func, hb, Except.map]
  · intro h
    have hb : id_hash_bytes it2 = .ok (utf8 (pyReprItem it2)) := by
      simp [id_hash_bytes, h]
    simp [default_id_hash_func, hb, Except.map]
  · cases hb : id_hash_bytes it2 <;> simp [default_id_hash_func, hb, Except.map]

/-- A concrete digest function for witnesses (md5 itself is an abstracted
library primitive; any function can instantiate it). -/
def md5w : List Nat → String := fun bs => toString bs.length

/-- A concrete record with non-empty appCode and id. -/
def item_w : Item := [("appCode", .VStr "app"), ("id", .VStr "123")]

/-- A concrete record without appCode. -/
def item_w2 : Item := [("title", .VStr "t")]

theorem claim1_default_id_hash_witness :
    (default_id_hash_func md5w 7 item_w).map Prod.fst
      = .ok (md5w (utf8 ("app" ++ "_" ++ "123")))
    ∧ (idcond item_w2 = false →
        (default_id_hash_func md5w 7 item_w2).map Prod.fst
          = .ok (md5w (utf8 (pyReprItem item_w2))))
    ∧ (default_id_hash_func md5w 7 item_w2).map Prod.fst
        = (default_id_hash_func md5w 8 item_w2).map Prod.fst :=
  claim1_default_id_hash md5w 7 8 item_w item_w2 "app" "123"
    (by decide) (by decide) (by decide) (by decide)

/-- Every action descriptor produced by the body-building loop has the
kind the loop was given. -/
theorem build_all_actions (hf : HashFunc) (ac : Option String) (cd : Option Int)
    (k ix dt : String) (itms : List Item) :
    all_actions_are k ix dt (build_bulk_body hf ac cd k ix dt itms) = true := by
  induction itms with
  | nil => simp [build_bulk_body, all_actions_are]
  | cons item rest ih =>
    cases hh : hf (annotate ac cd item) with
    | error e => simp [build_bulk_body, hh, all_actions_are]
    | ok pr =>
      obtain ⟨hid, item2⟩ := pr
      cases hr : build_bulk_body hf ac cd k ix dt rest with
      | error e => simp [build_bulk_body, hh, hr, all_actions_are]
      | ok pe =>
        obtain ⟨env, its⟩ := pe
        rw [hr] at ih
        simp [build_bulk_body, hh, hr, all_actions_are, is_action_of, actionJson] at ih ⊢
        exact ih

/-- C10: For every bulk write call where the actions argument is absent or
falsy, every action descriptor line in the assembled bulk request body
uses the action kind "index"; a truthy actions argument is used verbatim
as the action kind for every record in the batch. -/
theorem claim10_default_action_kind (hf : HashFunc) (ac : Option String) (cd : Option Int)
    (actions : Option String) (s ix dt : String) (itms : List Item) (hs : s ≠ "") :
    action_kind none = "index"
    ∧ action_kind (some "") = "index"
    ∧ action_kind (some s) = s
    ∧ all_actions_are (action_kind actions) ix dt
        (build_bulk_body hf ac cd (action_kind actions) ix dt itms) = true := by
  refine ⟨rfl, rfl, by simp [action_kind, hs], ?_⟩
  exact build_all_actions hf ac cd (action_kind actions) ix dt itms

theorem claim10_default_action_kind_witness :
    action_kind none = "index"
    ∧ action_kind (some "") = "index"
    ∧ action_kind (some "create") = "create"
    ∧ all_actions_are (action_kind none) "i" "d"
        (build_bulk_body (default_id_hash_func md5w 7) none none (action_kind none) "i" "d"
          [item_w2]) = true :=
  claim10_default_action_kind (default_id_hash_func md5w 7) none none none "create" "i" "d"
    [item_w2] (by decide)

/-- C3: For every bulk write call, any exception raised during the request
or response handling is caught inside the call and converted into the
sentinel result (None, None, None); the exception never propagates to the
caller (given the id-hashing stage succeeded, add_dict_to_es returns `.ok`
whatever the transport does); and the all-none sentinel is produced
exactly on such an exception — a completed request always carries all
three fields. -/
theorem claim3_exception_sentinel (md5hex : List Nat → String) (now : Int)
    (t : String → Option Int → Except PyErr Json) (ix dt : String) (itms : List Item)
    (idhf : Option HashFunc) (ac acts : Option String) (cd : Option Int)
    (eif : Bool) (tout : Option Int) (body : String)
    (env : List (Json × Json)) (its : List Item)
    (hb : build_bulk_body (hash_choice md5hex now idhf) ac cd (action_kind acts) ix dt itms
          = .ok (env, its)) :
    ((bulk_attempt t eif body tout).1 = (none, none, none)
      ↔ attempt_failed t eif body tout = true)
    ∧ (attempt_failed t eif body tout = false →
        ((bulk_attempt t eif body tout).1.1.isSome = true
         ∧ (bulk_attempt t eif body tout).1.2.1.isSome = true
         ∧ (bulk_attempt t eif body tout).1.2.2.isSome = true))
    ∧ add_dict_to_es md5hex now t ix dt itms idhf ac acts cd eif tout
        = .ok ((bulk_attempt t eif (body_string env) tout).1, its,
               (bulk_attempt t eif (body_string env) tout).2) := by
  refine ⟨?_, ?_, by simp [add_dict_to_es, hb]⟩
  · cases ht : t body tout with
    | error e => simp [bulk_attempt, attempt_failed, ht]
    | ok r =>
      cases hp : parse_bulk_response eif r with
      | mk lg res =>
        cases res with
        | error e => simp [bulk_attempt, attempt_failed, ht, hp]
        | ok sf =>
          obtain ⟨s, f⟩ := sf
          simp [bulk_attempt, attempt_failed, ht, hp]
  · intro hok
    cases ht : t body tout with
    | error e => simp [attempt_failed, ht] at hok
    | ok r =>
      cases hp : parse_bulk_response eif r with
      | mk lg res =>
        cases res with
        | error e => simp [attempt_failed, ht, hp] at hok
        | ok sf =>
          obtain ⟨s, f⟩ := sf
          simp [bulk_attempt, ht, hp]

/-- A digest function for witnesses that ignores its input. -/
def md5x : List Nat → String := fun _ => "x"

/-- A transport for witnesses answering every bulk request with an
error-free response carrying an empty items array. -/
def t_w : String → Option Int → Except PyErr Json := fun _ _ =>
  .ok (.jObj [("errors", .jBool false), ("items", .jArr [])])

/-- item_w2 after the createDate injection of the default hash function
at time 7. -/
def item_w2s : Item := [("title", .VStr "t"), ("createDate", .VInt 7)]

theorem claim3_exception_sentinel_witness :
    ((bulk_attempt t_w true "b" none).1 = (none, none, none)
      ↔ attempt_failed t_w true "b" none = true)
    ∧ (attempt_failed t_w true "b" none = false →
        ((bulk_attempt t_w true "b" none).1.1.isSome = true
         ∧ (bulk_attempt t_w true "b" none).1.2.1.isSome = true
         ∧ (bulk_attempt t_w true "b" none).1.2.2.isSome = true))
    ∧ add_dict_to_es md5x 7 t_w "i" "d" [item_w2] none none none none true none
        = .ok ((bulk_attempt t_w true
                 (body_string [(actionJson "index" "i" "d" "x", itemJson item_w2s)]) none).1,
               [item_w2s],
               (bulk_attempt t_w true
                 (body_string [(actionJson "index" "i" "d" "x", itemJson item_w2s)]) none).2) :=
  claim3_exception_sentinel md5x 7 t_w "i" "d" [item_w2] none none none none true none "b"
    [(actionJson "index" "i" "d" "x", itemJson item_w2s)] [item_w2s] rfl

/-- When the default id hash function succeeds, the record it hands back
is the input with createDate injected iff the field was absent. -/
theorem default_hash_ok_item (m : List Nat → String) (now : Int) (it : Item)
    (hid : String) (i2 : Item) (h : default_id_hash_func m now it = .ok (hid, i2)) :
    i2 = if (getVal it "createDate").isSome then it
         else setField it "createDate" (.VInt now) := by
  cases hb : id_hash_bytes it with
  | error e => simp [default_id_hash_func, hb] at h
  | ok v =>
    simp [default_id_hash_func, hb] at h
    exact h.2.symm

/-- A record the caller passes to a bulk write with a truthy app_code. -/
def item_c4 : Item := [("id", .VStr "1")]

/-- The same record after the write: appCode and createDate were written
into it in place. -/
def item_c4m : Item := [("id", .VStr "1"), ("appCode", .VStr "app"), ("createDate", .VInt 1000)]

/-- C4 counterexample: a bulk write with app_code "app" hands back the
caller's record with appCode and createDate added — the record supplied by
the caller is NOT left unchanged, refuting the claim at this input. -/
theorem claim4_counterexample :
    result_items (add_dict_to_es md5x 1000 t_w "i" "d" [item_c4] none (some "app") none none
      true none) = .ok [item_c4m]
    ∧ item_c4m ≠ item_c4 :=
  ⟨rfl, by decide⟩

/-- C4 (amended): For every record passed into a bulk write call using the
default identifier function, annotation is performed by mutating the
caller's record in place, not on a derived copy: after the call each
caller record equals its annotated form es_stamp (appCode injected when a
truthy app_code is given, createDate injected when a truthy create_date is
given or when the record still lacked createDate at hashing time). -/
theorem claim4_in_place_annotation (m : List Nat → String) (now : Int)
    (ac : Option String) (cd : Option Int) (akind ix dt : String) (itms : List Item)
    (env : List (Json × Json)) (its : List Item)
    (hb : build_bulk_body (default_id_hash_func m now) ac cd akind ix dt itms
          = .ok (env, its)) :
    its = itms.map (es_stamp now ac cd) := by
  induction itms generalizing env its with
  | nil =>
    simp [build_bulk_body] at hb
    rw [hb.2]
    simp
  | cons item rest ih =>
    cases hh : default_id_hash_func m now (annotate ac cd item) with
    | error e => simp [build_bulk_body, hh] at hb
    | ok pr =>
      obtain ⟨hid, item2⟩ := pr
      cases hr : build_bulk_body (default_id_hash_func m now) ac cd akind ix dt rest with
      | error e => simp [build_bulk_body, hh, hr] at hb
      | ok pe =>
        obtain ⟨env2, its2⟩ := pe
        simp [build_bulk_body, hh, hr] at hb
        have hst : es_stamp now ac cd item = item2 := by
          have h2 := default_hash_ok_item m now (annotate ac cd item) hid item2 hh
          simp [es_stamp]
          exact h2.symm
        rw [← hb.2, List.map_cons, hst]
        exact congrArg (item2 :: ·) (ih env2 its2 hr)

theorem claim4_in_place_annotation_witness :
    [item_c4m] = [item_c4].map (es_stamp 1000 (some "app") none) :=
  claim4_in_place_annotation md5x 1000 (some "app") none "index" "i" "d" [item_c4]
    [(actionJson "index" "i" "d" "x", itemJson item_c4m)] [item_c4m] rfl

/-- String append acts as list append on the character data. -/
theorem str_data_append (a b : String) : (a ++ b).data = a.data ++ b.data := by
  cases a
  cases b
  rfl

/-- A substring of m is a substring of x ++ m. -/
theorem str_contains_append_left (x m s : String) (h : str_contains m s) :
    str_contains (x ++ m) s := by
  obtain ⟨pre, post, hp⟩ := h
  exact ⟨x.data ++ pre, post, by simp [str_data_append, hp]⟩

/-- A substring of m is a substring of m ++ x. -/
theorem str_contains_append_right (m x s : String) (h : str_contains m s) :
    str_contains (m ++ x) s := by
  obtain ⟨pre, post, hp⟩ := h
  exact ⟨pre, post ++ x.data, by simp [str_data_append, hp]⟩

/-- The serialization of an object contains the entry of each of its
fields. -/
theorem dumpObj_contains (k : String) (v : Json) (kvs : List (String × Json))
    (h : (k, v) ∈ kvs) : str_contains (dumpObj kvs) (objEntry k v) := by
  induction kvs with
  | nil => cases h
  | cons e rest ih =>
    obtain ⟨k2, v2⟩ := e
    rcases List.mem_cons.mp h with h1 | h1
    · obtain ⟨hk, hv⟩ := Prod.mk.injEq .. ▸ h1
      subst hk
      subst hv
      cases rest with
      | nil => exact ⟨[], [], by simp [dumpObj, objEntry]⟩
      | cons e2 rest2 =>
        exact ⟨[], (", " ++ dumpObj (e2 :: rest2)).data, by
          simp [dumpObj, objEntry, str_data_append]⟩
    · cases rest with
      | nil => cases h1
      | cons e2 rest2 =>
        obtain ⟨pre, post, hp⟩ := ih h1
        exact ⟨(objEntry k2 v2 ++ ", ").data ++ pre, post, by
          simp [dumpObj, objEntry, str_data_append, hp]⟩

/-- Assigning a key makes it readable. -/
theorem getVal_setField (it : Item) (k : String) (v : Value) :
    getVal (setField it k v) k = some v := by
  induction it with
  | nil => simp [setField, getVal]
  | cons p rest ih =>
    obtain ⟨k2, v2⟩ := p
    by_cases h : k2 = k <;> simp [setField, getVal, h, ih]

/-- Assigning an absent key appends it at the end (insertion order). -/
theorem setField_absent (it : Item) (k : String) (v : Value) (h : getVal it k = none) :
    setField it k v = it ++ [(k, v)] := by
  induction it with
  | nil => simp [setField]
  | cons p rest ih =>
    obtain ⟨k2, v2⟩ := p
    by_cases hk : k2 = k
    · simp [getVal, hk] at h
    · simp [getVal, hk] at h
      simp [setField, hk, ih h]

/-- C8: For every record that lacks a createDate field at the time its
identifier is computed by the default identifier function: afterwards the
record contains createDate = now (the Unix time at computation); that
field appears in the record's JSON object; the record takes its place in
the bulk envelope; and the serialized record line — hence the transmitted
bulk request body — contains the serialized "createDate": now entry. -/
theorem claim8_createdate_injection (m : List Nat → String) (now : Int)
    (ac : Option String) (cd : Option Int) (akind ix dt hid : String)
    (item item2 : Item) (rest : List Item) (env : List (Json × Json)) (its : List Item)
    (h0 : getVal (annotate ac cd item) "createDate" = none)
    (h1 : default_id_hash_func m now (annotate ac cd item) = .ok (hid, item2))
    (h2 : build_bulk_body (default_id_hash_func m now) ac cd akind ix dt rest
          = .ok (env, its)) :
    getVal item2 "createDate" = some (.VInt now)
    ∧ ("createDate", Json.jNum now) ∈ item_json_fields item2
    ∧ build_bulk_body (default_id_hash_func m now) ac cd akind ix dt (item :: rest)
        = .ok ((actionJson akind ix dt hid, itemJson item2) :: env, item2 :: its)
    ∧ str_contains (pyJsonDumps (itemJson item2)) (objEntry "createDate" (.jNum now))
    ∧ str_contains (body_string ((actionJson akind ix dt hid, itemJson item2) :: env))
        (objEntry "createDate" (.jNum now)) := by
  have hi2 : item2 = setField (annotate ac cd item) "createDate" (.VInt now) := by
    have h3 := default_hash_ok_item m now (annotate ac cd item) hid item2 h1
    rw [h0] at h3
    simpa using h3
  have hmem : ("createDate", Value.VInt now) ∈ item2 := by
    rw [hi2, setField_absent _ _ _ h0]
    simp
  have hjmem : ("createDate", Json.jNum now) ∈ item_json_fields item2 := by
    have := List.mem_map_of_mem (fun p => (p.1, valueJson p.2)) hmem
    simpa [item_json_fields, valueJson] using this
  have hdump : str_contains (pyJsonDumps (itemJson item2)) (objEntry "createDate" (.jNum now)) := by
    have hc := dumpObj_contains "createDate" (.jNum now) (item_json_fields item2) hjmem
    have he : pyJsonDumps (itemJson item2)
        = "\x7b" ++ dumpObj (item_json_fields item2) ++ "\x7d" := by
      simp [itemJson, pyJsonDumps]
    rw [he]
    exact str_contains_append_right _ _ _ (str_contains_append_left _ _ _ hc)
  refine ⟨?_, hjmem, ?_, hdump, ?_⟩
  · rw [hi2]
    exact getVal_setField _ _ _
  · simp [build_bulk_body, h1, h2]
  · show str_contains (pyJsonDumps (actionJson akind ix dt hid) ++ "\n"
      ++ pyJsonDumps (itemJson item2) ++ "\n" ++ body_string env) _
    have s1 := str_contains_append_left (pyJsonDumps (actionJson akind ix dt hid) ++ "\n")
      _ _ hdump
    have s2 := str_contains_append_right _ "\n" _ s1
    have s3 := str_contains_append_right _ (body_string env) _ s2
    exact s3

/-- A concrete record lacking createDate. -/
def item_c8 : Item := [("t", .VStr "v")]

/-- The same record after identifier computation at time 5. -/
def item_c8m : Item := [("t", .VStr "v"), ("createDate", .VInt 5)]

theorem claim8_createdate_injection_witness :
    getVal item_c8m "createDate" = some (.VInt 5)
    ∧ ("createDate", Json.jNum 5) ∈ item_json_fields item_c8m
    ∧ build_bulk_body (default_id_hash_func md5x 5) none none "index" "i" "d" [item_c8]
        = .ok ([(actionJson "index" "i" "d" "x", itemJson item_c8m)], [item_c8m])
    ∧ str_contains (pyJsonDumps (itemJson item_c8m)) (objEntry "createDate" (.jNum 5))
    ∧ str_contains (body_string [(actionJson "index" "i" "d" "x", itemJson item_c8m)])
        (objEntry "createDate" (.jNum 5)) :=
  claim8_createdate_injection md5x 5 none none "index" "i" "d" "x" item_c8 item_c8m
    [] [] [] (by decide) rfl rfl

/-- A well-formed per-item result of a bulk response: a single-entry
object (keyed by the operation name) whose value is the operation result
object. -/
def mk_resp_item (k : String) (fields : List (String × Json)) : Json :=
  .jObj [(k, .jObj fields)]

/-- When some field is keyed "error", looking it up yields err_val. -/
theorem any_key_lookup (fields : List (String × Json))
    (h : fields.any (fun p => p.1 == "error") = true) :
    jsonLookup fields "error" = some (err_val fields) := by
  induction fields with
  | nil => simp at h
  | cons p rest ih =>
    obtain ⟨k, v⟩ := p
    by_cases hk : k = "error"
    · simp [jsonLookup, hk, err_val]
    · have hk2 : (k == "error") = false := by simp [hk]
      simp only [List.any_cons, hk2, Bool.false_or] at h
      simpa [jsonLookup, hk, err_val] using ih h

/-- entry_has_error on a well-formed per-item result. -/
theorem entry_has_error_mk (k : String) (fields : List (String × Json)) :
    entry_has_error (mk_resp_item k fields) = fields.any (fun p => p.1 == "error") := by
  simp [entry_has_error, mk_resp_item]

/-- err_logs on a cons of a well-formed per-item result. -/
theorem err_logs_cons (k : String) (fields : List (String × Json)) (rest : List Json) :
    err_logs (mk_resp_item k fields :: rest)
      = (if fields.any (fun p => p.1 == "error") then [pyJsonDumps (err_val fields)] else [])
        ++ err_logs rest := by
  simp [mk_resp_item, err_logs]

/-- count_success_resp on a cons. -/
theorem count_success_cons (x : Json) (rest : List Json) :
    count_success_resp (x :: rest)
      = (if entry_has_error x then 0 else 1) + count_success_resp rest := by
  cases h : entry_has_error x <;> simp [count_success_resp, List.filter_cons, h, Nat.add_comm]

/-- count_fail_resp on a cons. -/
theorem count_fail_cons (x : Json) (rest : List Json) :
    count_fail_resp (x :: rest)
      = (if entry_has_error x then 1 else 0) + count_fail_resp rest := by
  cases h : entry_has_error x <;> simp [count_fail_resp, List.filter_cons, h, Nat.add_comm]

/-- One step of the counting loop on a well-formed per-item result: a
result with an "error" key counts as a failure (logging its dumped error
iff error_if_fail), one without counts as a success; the loop never raises
on such a result. -/
theorem count_loop_cons (eif : Bool) (k : String) (fields : List (String × Json))
    (rest : List Json) (s f : Nat) (lg : List String) :
    count_loop eif (mk_resp_item k fields :: rest) s f lg
      = if fields.any (fun p => p.1 == "error")
        then (if eif then count_loop eif rest s (f + 1) (lg ++ [pyJsonDumps (err_val fields)])
              else count_loop eif rest s (f + 1) lg)
        else count_loop eif rest (s + 1) f lg := by
  cases hany : fields.any (fun p => p.1 == "error") with
  | true =>
    have hlk := any_key_lookup fields hany
    cases eif <;>
      simp [mk_resp_item, count_loop, pyDictItems, count_entries, pyIn, hany, pyGetItem, hlk]
  | false =>
    cases eif <;>
      simp [mk_resp_item, count_loop, pyDictItems, count_entries, pyIn, hany]

/-- The counting loop of the partial-error branch over well-formed
per-item results: it never raises, counts one failure per result whose
operation object has an "error" key and one success per result without,
and appends one dumped error per failure to the log iff error_if_fail. -/
theorem count_loop_items (eif : Bool) (ents : List (String × List (String × Json))) :
    ∀ s f lg, count_loop eif (ents.map (fun e => mk_resp_item e.1 e.2)) s f lg
      = (lg ++ (if eif then err_logs (ents.map (fun e => mk_resp_item e.1 e.2)) else []),
         .ok (s + count_success_resp (ents.map (fun e => mk_resp_item e.1 e.2)),
              f + count_fail_resp (ents.map (fun e => mk_resp_item e.1 e.2)))) := by
  induction ents with
  | nil =>
    intro s f lg
    simp [count_loop, count_success_resp, count_fail_resp, err_logs]
  | cons e rest ih =>
    obtain ⟨k, fields⟩ := e
    intro s f lg
    rw [List.map_cons, count_loop_cons]
    cases hany : fields.any (fun p => p.1 == "error") with
    | true =>
      cases eif <;>
        simp [hany, ih, err_logs_cons, count_success_cons, count_fail_cons,
              entry_has_error_mk, List.append_assoc] <;>
        omega
    | false =>
      cases eif <;>
        simp [hany, ih, err_logs_cons, count_success_cons, count_fail_cons,
              entry_has_error_mk, List.append_assoc] <;>
        omega

/-- C2 (amended): For every bulk write whose HTTP request completes with a
parsed response whose per-item results are well formed: if the errors flag
is truthy, the returned success count equals the number of per-item
results without an "error" key and the fail count equals the number with
one, the failed items' errors are logged iff error_if_fail, and no
exception is raised for them; if the errors flag is falsy, the returned
success count equals the number of per-item results carried by the
response (which equals the number of submitted items whenever the backend
answers one result per submitted action) and the fail count equals 0. -/
theorem claim2_bulk_counts (m : List Nat → String) (now : Int)
    (t : String → Option Int → Except PyErr Json) (ix dt : String) (itms : List Item)
    (idhf : Option HashFunc) (ac acts : Option String) (cd : Option Int)
    (eif : Bool) (tout : Option Int) (env : List (Json × Json)) (its : List Item)
    (r ev : Json) (ents : List (String × List (String × Json)))
    (hb : build_bulk_body (hash_choice m now idhf) ac cd (action_kind acts) ix dt itms
          = .ok (env, its))
    (ht : t (body_string env) tout = .ok r)
    (he : pyGetItem r "errors" = .ok ev)
    (hi : pyGetItem r "items" = .ok (.jArr (ents.map (fun e => mk_resp_item e.1 e.2)))) :
    (jTruthy ev = true →
      add_dict_to_es m now t ix dt itms idhf ac acts cd eif tout
        = .ok ((some (count_success_resp (ents.map (fun e => mk_resp_item e.1 e.2))),
                some (count_fail_resp (ents.map (fun e => mk_resp_item e.1 e.2))),
                some r), its,
               if eif then err_logs (ents.map (fun e => mk_resp_item e.1 e.2)) else []))
    ∧ (jTruthy ev = false →
      add_dict_to_es m now t ix dt itms idhf ac acts cd eif tout
        = .ok ((some (ents.map (fun e => mk_resp_item e.1 e.2)).length, some 0, some r),
               its, [])) := by
  constructor
  · intro hev
    have hp : parse_bulk_response eif r
        = (if eif then err_logs (ents.map (fun e => mk_resp_item e.1 e.2)) else [],
           .ok (count_success_resp (ents.map (fun e => mk_resp_item e.1 e.2)),
                count_fail_resp (ents.map (fun e => mk_resp_item e.1 e.2)))) := by
      have hc := count_loop_items eif ents 0 0 []
      simp [parse_bulk_response, he, hev, hi, pyIterList] at hc ⊢
      exact hc
    simp [add_dict_to_es, hb, bulk_attempt, ht, hp]
  · intro hev
    have hp : parse_bulk_response eif r
        = ([], .ok ((ents.map (fun e => mk_resp_item e.1 e.2)).length, 0)) := by
      simp [parse_bulk_response, he, hev, hi, pyLen]
    simp [add_dict_to_es, hb, bulk_attempt, ht, hp]

/-- The two per-item results of the witness response: one success, one
failure. -/
def ents_w : List (String × List (String × Json)) :=
  [("index", [("status", .jNum 200)]), ("index", [("error", .jStr "boom")])]

/-- The witness response: errors flag set, the two results above. -/
def resp_w2 : Json :=
  .jObj [("errors", .jBool true), ("items", .jArr (ents_w.map (fun e => mk_resp_item e.1 e.2)))]

/-- A transport answering every request with resp_w2. -/
def t_w2 : String → Option Int → Except PyErr Json := fun _ _ => .ok resp_w2

theorem claim2_bulk_counts_witness :
    (jTruthy (.jBool true) = true →
      add_dict_to_es md5x 0 t_w2 "i" "d" [] none none none none true none
        = .ok ((some (count_success_resp (ents_w.map (fun e => mk_resp_item e.1 e.2))),
                some (count_fail_resp (ents_w.map (fun e => mk_resp_item e.1 e.2))),
                some resp_w2), [],
               if true then err_logs (ents_w.map (fun e => mk_resp_item e.1 e.2)) else []))
    ∧ (jTruthy (.jBool true) = false →
      add_dict_to_es md5x 0 t_w2 "i" "d" [] none none none none true none
        = .ok ((some (ents_w.map (fun e => mk_resp_item e.1 e.2)).length, some 0, some resp_w2),
               [], [])) :=
  claim2_bulk_counts md5x 0 t_w2 "i" "d" [] none none none none true none [] []
    resp_w2 (.jBool true) ents_w rfl rfl rfl rfl

/-- The two-record batch of the C2 counterexample. -/
def items_c2 : List Item := [[("a", .VStr "p")], [("a", .VStr "q")]]

/-- A response with errors flag false whose items array carries a single
result although two records were submitted. -/
def resp_c2 : Json :=
  .jObj [("errors", .jBool false),
         ("items", .jArr [.jObj [("index", .jObj [("status", .jNum 201)])]])]

/-- A transport answering every request with resp_c2. -/
def t_c2 : String → Option Int → Except PyErr Json := fun _ _ => .ok resp_c2

/-- C2 counterexample: two records are submitted, the response reports
errors=false with one per-item result, and the returned success count is
1, not the number of submitted items (2) — the code counts
len(r["items"]), refuting the claim as stated at this input. -/
theorem claim2_counterexample :
    wr_success (add_dict_to_es md5x 0 t_c2 "i" "d" items_c2 none none none none true none)
      = some 1
    ∧ some 1 ≠ some items_c2.length :=
  ⟨rfl, by decide⟩

/-- The one-step unfolding of main_loop_go at positive fuel. -/
theorem main_loop_go_succ (rot : Bool) (ros : List Int) (method : String)
    (conn : Nat → Except ESErr (Int × Option String)) (deser : String → Json)
    (fuel attempt : Nat) :
    main_loop_go rot ros method conn deser (fuel + 1) attempt
      = match conn attempt with
        | .ok (status, data) =>
          if method = "HEAD" then
            (.headBool (decide (200 ≤ status) && decide (status < 300)), attempt + 1)
          else
            match data with
            | none => (.rawData none, attempt + 1)
            | some d =>
              if d = "" then (.rawData (some d), attempt + 1)
              else (.parsed (deser d), attempt + 1)
        | .error e =>
          if method = "HEAD" && e.is404 then (.headBool false, attempt + 1)
          else if retryable rot ros e then
            (if fuel = 0 then (.raised e, attempt + 1)
             else main_loop_go rot ros method conn deser fuel (attempt + 1))
          else (.raised e, attempt + 1) := rfl

/-- main_loop_go makes at most `fuel` further invocations beyond the
`attempt` already counted. -/
theorem go_count_le (rot : Bool) (ros : List Int) (method : String)
    (conn : Nat → Except ESErr (Int × Option String)) (deser : String → Json) :
    ∀ fuel attempt, (main_loop_go rot ros method conn deser fuel attempt).2 ≤ attempt + fuel := by
  intro fuel
  induction fuel with
  | zero => intro attempt; simp [main_loop_go]
  | succ f2 ihf =>
    intro attempt
    rw [main_loop_go_succ]
    cases hc : conn attempt with
    | ok p =>
      obtain ⟨st, data⟩ := p
      by_cases hm : method = "HEAD"
      · simp [hm]
      · cases data with
        | none => simp [hm]
        | some d => by_cases hd : d = "" <;> simp [hm, hd]
    | error e =>
      by_cases h4 : (decide (method = "HEAD") && e.is404) = true
      · simp [h4]
      · cases hr : retryable rot ros e with
        | false => simp [h4, hr]
        | true =>
          cases f2 with
          | zero => simp [h4, hr]
          | succ f3 =>
            have hrec := ihf (attempt + 1)
            simp [h4, hr]
            all_goals omega

/-- Skipping a transient prefix: after k retryable failures (none of them
the HEAD/404 early return) the loop stands at attempt k with k fewer
iterations of fuel. -/
theorem go_prefix (rot : Bool) (ros : List Int) (method : String)
    (conn : Nat → Except ESErr (Int × Option String)) (deser : String → Json)
    (errs : Nat → ESErr) :
    ∀ (k attempt fuel : Nat),
    (∀ i, i < k → conn (attempt + i) = .error (errs (attempt + i))
        ∧ retryable rot ros (errs (attempt + i)) = true
        ∧ (method = "HEAD" → (errs (attempt + i)).is404 = false)) →
    k < fuel →
    main_loop_go rot ros method conn deser fuel attempt
      = main_loop_go rot ros method conn deser (fuel - k) (attempt + k) := by
  intro k
  induction k with
  | zero => intro attempt fuel _ _; simp
  | succ k2 ihk =>
    intro attempt fuel h hk
    obtain ⟨hc, hr, hh⟩ := h 0 (by omega)
    simp only [Nat.add_zero] at hc hr hh
    cases fuel with
    | zero => omega
    | succ f2 =>
      have hnot404 : (decide (method = "HEAD") && (errs attempt).is404) = false := by
        by_cases hm : method = "HEAD"
        · simp [hm, hh hm]
        · simp [hm]
      cases f2 with
      | zero => omega
      | succ f3 =>
        have hs : ∀ i, i < k2 → conn (attempt + 1 + i) = .error (errs (attempt + 1 + i))
            ∧ retryable rot ros (errs (attempt + 1 + i)) = true
            ∧ (method = "HEAD" → (errs (attempt + 1 + i)).is404 = false) := by
          intro i hi
          have h2 := h (i + 1) (by omega)
          have he : attempt + (i + 1) = attempt + 1 + i := by omega
          rw [he] at h2
          exact h2
        have hrec := ihk (attempt + 1) (f3 + 1) hs (by omega)
        calc main_loop_go rot ros method conn deser (f3 + 1 + 1) attempt
            = main_loop_go rot ros method conn deser (f3 + 1) (attempt + 1) := by
              rw [main_loop_go_succ, hc]
              simp [hnot404, hr]
          _ = main_loop_go rot ros method conn deser (f3 + 1 - k2) (attempt + 1 + k2) := hrec
          _ = main_loop_go rot ros method conn deser (f3 + 1 + 1 - (k2 + 1)) (attempt + (k2 + 1)) := by
              rw [show attempt + 1 + k2 = attempt + (k2 + 1) by omega,
                  show f3 + 1 - k2 = f3 + 1 + 1 - (k2 + 1) by omega]

/-- C5 (amended): For every request through the retrying transport loop,
the underlying operation is invoked at most max_retry + 1 times; a
transient failure (connection error, connection timeout when
retry-on-timeout is enabled, or a status in the retry-on-status set)
triggers a further attempt unless the attempt bound is exhausted, in which
case the failure is raised; any non-transient failure is raised
immediately without a further attempt — except that on a HEAD request a
TransportError with status 404 immediately returns False instead of
raising (and never retries). -/
theorem claim5_retry_loop (rot : Bool) (ros : List Int) (method : String) (maxr : Nat)
    (conn : Nat → Except ESErr (Int × Option String)) (deser : String → Json)
    (errs : Nat → ESErr) (k : Nat) (st : Int) (data : Option String) (e : ESErr) :
    (main_loop rot ros method maxr conn deser).2 ≤ maxr + 1
    ∧ ((∀ i, i ≤ maxr → conn i = .error (errs i) ∧ retryable rot ros (errs i) = true
          ∧ (method = "HEAD" → (errs i).is404 = false)) →
        main_loop rot ros method maxr conn deser = (.raised (errs maxr), maxr + 1))
    ∧ (prefix_transient rot ros method conn errs k → k ≤ maxr → conn k = .ok (st, data) →
        ((main_loop rot ros method maxr conn deser).2 = k + 1
         ∧ (main_loop rot ros method maxr conn deser).1.isRaised = false))
    ∧ (prefix_transient rot ros method conn errs k → k ≤ maxr → conn k = .error e →
        retryable rot ros e = false → (method = "HEAD" → e.is404 = false) →
        main_loop rot ros method maxr conn deser = (.raised e, k + 1))
    ∧ (prefix_transient rot ros method conn errs k → k ≤ maxr → conn k = .error e →
        method = "HEAD" → e.is404 = true →
        main_loop rot ros method maxr conn deser = (.headBool false, k + 1)) := by
  refine ⟨?_, ?_, ?_, ?_, ?_⟩
  · have := go_count_le rot ros method conn deser (maxr + 1) 0
    simpa [main_loop] using this
  · intro hall
    have hpre : ∀ i, i < maxr → conn (0 + i) = .error (errs (0 + i))
        ∧ retryable rot ros (errs (0 + i)) = true
        ∧ (method = "HEAD" → (errs (0 + i)).is404 = false) := by
      intro i hi
      simpa using hall i (by omega)
    have hskip := go_prefix rot ros method conn deser errs maxr 0 (maxr + 1) hpre (by omega)
    obtain ⟨hc, hr, hh⟩ := hall maxr (le_refl maxr)
    have hnot404 : (decide (method = "HEAD") && (errs maxr).is404) = false := by
      by_cases hm : method = "HEAD"
      · simp [hm, hh hm]
      · simp [hm]
    rw [main_loop, hskip]
    rw [show maxr + 1 - maxr = 0 + 1 by omega, show (0 : Nat) + maxr = maxr by omega]
    rw [main_loop_go_succ, hc]
    simp [hnot404, hr]
  · intro hpre hk hc
    have hskip := go_prefix rot ros method conn deser errs k 0 (maxr + 1)
      (by intro i hi; simpa using hpre i hi) (by omega)
    rw [main_loop, hskip, show maxr + 1 - k = (maxr - k) + 1 by omega,
        show (0 : Nat) + k = k by omega, main_loop_go_succ, hc]
    by_cases hm : method = "HEAD"
    · simp [hm, MainRet.isRaised]
    · cases data with
      | none => simp [hm, MainRet.isRaised]
      | some d =>
        by_cases hd : d = "" <;> simp [hm, hd, MainRet.isRaised]
  · intro hpre hk hc hr hh
    have hskip := go_prefix rot ros method conn deser errs k 0 (maxr + 1)
      (by intro i hi; simpa using hpre i hi) (by omega)
    have hnot404 : (decide (method = "HEAD") && e.is404) = false := by
      by_cases hm : method = "HEAD"
      · simp [hm, hh hm]
      · simp [hm]
    rw [main_loop, hskip, show maxr + 1 - k = (maxr - k) + 1 by omega,
        show (0 : Nat) + k = k by omega, main_loop_go_succ, hc]
    simp [hnot404, hr]
  · intro hpre hk hc hm h4
    have hskip := go_prefix rot ros method conn deser errs k 0 (maxr + 1)
      (by intro i hi; simpa using hpre i hi) (by omega)
    rw [main_loop, hskip, show maxr + 1 - k = (maxr - k) + 1 by omega,
        show (0 : Nat) + k = k by omega, main_loop_go_succ, hc]
    simp [hm, h4]

/-- A connection that always fails with a plain 404 TransportError. -/
def conn_c5 : Nat → Except ESErr (Int × Option String) := fun _ => .error (.transport 404)

/-- A deserializer for witnesses. -/
def deser_w : String → Json := fun _ => .jNull

/-- C5 counterexample: a HEAD request whose first attempt raises a
TransportError with status 404 — a non-transient failure (404 is not in
the default retry-on-status set {502, 503, 504}) — is NOT re-raised: the
loop swallows it and returns False after a single invocation, refuting
the claim as stated at this input. -/
theorem claim5_counterexample :
    main_loop false [502, 503, 504] "HEAD" 2 conn_c5 deser_w = (.headBool false, 1)
    ∧ (main_loop false [502, 503, 504] "HEAD" 2 conn_c5 deser_w).1.isRaised = false :=
  ⟨rfl, rfl⟩

/-- A connection that always fails with a retryable connection error. -/
def conn_w5 : Nat → Except ESErr (Int × Option String) := fun _ => .error .connError

/-- The matching error sequence. -/
def errs_w5 : Nat → ESErr := fun _ => .connError

theorem claim5_retry_loop_witness :
    main_loop true [] "POST" 2 conn_w5 deser_w = (.raised .connError, 3) :=
  (claim5_retry_loop true [] "POST" 2 conn_w5 deser_w errs_w5 0 0 none .connError).2.1
    (fun _ _ => ⟨rfl, rfl, fun h => absurd h (by decide)⟩)

/-- C6: For every pair of consecutive retry attempts of a failed
operation, the Retry Policy sleeps a duration drawn uniformly from the
closed interval [min_sleep, max_sleep] seconds (the drawn value always
lies in the interval); in particular with min_sleep = max_sleep = 1/10
every inter-attempt delay equals 1/10 seconds, whatever the sample. -/
theorem claim6_retry_sleep (mn mx u : ℚ) (h0 : 0 ≤ u) (h1 : u ≤ 1) (hle : mn ≤ mx) :
    mn ≤ retry_sleep_duration mn mx u
    ∧ retry_sleep_duration mn mx u ≤ mx
    ∧ retry_sleep_duration (1 / 10) (1 / 10) u = 1 / 10 := by
  refine ⟨?_, ?_, ?_⟩
  · have h2 : 0 ≤ u * (mx - mn) := mul_nonneg h0 (by linarith)
    simp only [retry_sleep_duration]
    linarith
  · have h2 : u * (mx - mn) ≤ 1 * (mx - mn) :=
      mul_le_mul_of_nonneg_right h1 (by linarith)
    simp only [retry_sleep_duration]
    linarith
  · simp [retry_sleep_duration]

theorem claim6_retry_sleep_witness :
    (1 : ℚ) / 4 ≤ retry_sleep_duration (1 / 4) (1 / 2) (1 / 3)
    ∧ retry_sleep_duration (1 / 4) (1 / 2) (1 / 3) ≤ 1 / 2
    ∧ retry_sleep_duration (1 / 10) (1 / 10) (1 / 3) = 1 / 10 :=
  claim6_retry_sleep (1 / 4) (1 / 2) (1 / 3) (by norm_num) (by norm_num) (by norm_num)

/-- C7: For every sink config with a lazily-created pool handle starting
uninitialized: acquiring twice without an intervening release returns the
identical cached handle, leaves the state unchanged and constructs only
one pool (the fresh-pool counter advances exactly once, on the first
call); for the relational config, free_resource resets the pool handle,
connection and cursor to uninitialized, and a subsequent acquisition
constructs a fresh pool distinct from the first. -/
theorem claim7_pool_caching (cr : WRedisState) (cm : WMySQLState) (w : Nat)
    (hr : cr.redis_pool_cli = none) (hm : cm.mysql_pool_cli = none) :
    (get_redis_pool_cli ((get_redis_pool_cli w cr).2.2) ((get_redis_pool_cli w cr).2.1)
        = ((get_redis_pool_cli w cr).1, (get_redis_pool_cli w cr).2.1,
           (get_redis_pool_cli w cr).2.2))
    ∧ (get_redis_pool_cli w cr).2.2 = w + 1
    ∧ ((get_redis_pool_cli w cr).1).pid = w
    ∧ (get_mysql_pool_cli ((get_mysql_pool_cli w cm).2.2) ((get_mysql_pool_cli w cm).2.1)
        = ((get_mysql_pool_cli w cm).1, (get_mysql_pool_cli w cm).2.1,
           (get_mysql_pool_cli w cm).2.2))
    ∧ (get_mysql_pool_cli w cm).2.2 = w + 1
    ∧ (free_resource ((get_mysql_pool_cli w cm).2.1)).mysql_pool_cli = none
    ∧ (free_resource ((get_mysql_pool_cli w cm).2.1)).connection = none
    ∧ (free_resource ((get_mysql_pool_cli w cm).2.1)).cursor = none
    ∧ ((get_mysql_pool_cli ((get_mysql_pool_cli w cm).2.2)
          (free_resource ((get_mysql_pool_cli w cm).2.1))).1).pid
        = (get_mysql_pool_cli w cm).2.2
    ∧ ((get_mysql_pool_cli ((get_mysql_pool_cli w cm).2.2)
          (free_resource ((get_mysql_pool_cli w cm).2.1))).1).pid
        ≠ ((get_mysql_pool_cli w cm).1).pid
    ∧ (get_mysql_pool_cli ((get_mysql_pool_cli w cm).2.2)
          (free_resource ((get_mysql_pool_cli w cm).2.1))).2.2 = w + 2 := by
  simp [get_redis_pool_cli, get_mysql_pool_cli, free_resource, hr, hm]

/-- A concrete freshly constructed redis sink config. -/
def cr_w : WRedisState :=
  { redis_pool_cli := none, key := "k", host := "h", port := 6379, db := 0,
    password := none, encoding := "utf-8", timeout := 3, key_type := "LIST",
    name := "h_6379->k", redis_write_method := none, direction := "L", max_retry := 3,
    random_min_sleep := 1, random_max_sleep := 3, compress := false, is_range := true }

/-- A concrete freshly constructed mysql sink config. -/
def cm_w : WMySQLState :=
  { table := "t", database := "db", max_retry := 3, random_min_sleep := 1,
    random_max_sleep := 3, name := "t->db", host := "h", port := 3306, user := "u",
    password := "", encoding := "utf8", mysql_pool_cli := none, connection := none,
    cursor := none }

theorem claim7_pool_caching_witness :
    (get_redis_pool_cli ((get_redis_pool_cli 0 cr_w).2.2) ((get_redis_pool_cli 0 cr_w).2.1)
        = ((get_redis_pool_cli 0 cr_w).1, (get_redis_pool_cli 0 cr_w).2.1,
           (get_redis_pool_cli 0 cr_w).2.2))
    ∧ (get_redis_pool_cli 0 cr_w).2.2 = 0 + 1
    ∧ ((get_redis_pool_cli 0 cr_w).1).pid = 0
    ∧ (get_mysql_pool_cli ((get_mysql_pool_cli 0 cm_w).2.2) ((get_mysql_pool_cli 0 cm_w).2.1)
        = ((get_mysql_pool_cli 0 cm_w).1, (get_mysql_pool_cli 0 cm_w).2.1,
           (get_mysql_pool_cli 0 cm_w).2.2))
    ∧ (get_mysql_pool_cli 0 cm_w).2.2 = 0 + 1
    ∧ (free_resource ((get_mysql_pool_cli 0 cm_w).2.1)).mysql_pool_cli = none
    ∧ (free_resource ((get_mysql_pool_cli 0 cm_w).2.1)).connection = none
    ∧ (free_resource ((get_mysql_pool_cli 0 cm_w).2.1)).cursor = none
    ∧ ((get_mysql_pool_cli ((get_mysql_pool_cli 0 cm_w).2.2)
          (free_resource ((get_mysql_pool_cli 0 cm_w).2.1))).1).pid
        = (get_mysql_pool_cli 0 cm_w).2.2
    ∧ ((get_mysql_pool_cli ((get_mysql_pool_cli 0 cm_w).2.2)
          (free_resource ((get_mysql_pool_cli 0 cm_w).2.1))).1).pid
        ≠ ((get_mysql_pool_cli 0 cm_w).1).pid
    ∧ (get_mysql_pool_cli ((get_mysql_pool_cli 0 cm_w).2.2)
          (free_resource ((get_mysql_pool_cli 0 cm_w).2.1))).2.2 = 0 + 2 :=
  claim7_pool_caching cr_w cm_w 0 rfl rfl

/-- C9: For every construction of a sink config targeting a
document-index, key-value, or relational sink with required connection
parameters missing (no configuration present — and for the key-value /
relational sinks a non-positive port), and for every key-value config with
an unsupported key_type or a missing encoding, the constructor raises a
ValueError synchronously (the init functions are pure: the error is
produced before any connection or write is attempted); a construction that
does not raise returns the fully initialized config record. -/
theorem claim9_config_validation (mc : MainConfigFlags)
    (key key_type host : String) (port db : Int) (password : Option String)
    (timeout : Int) (encoding direction : String) (max_retry : Nat) (rmin rmax : ℚ)
    (compress : Bool)
    (indices doc_type : String) (appCode actions : Option String) (createDate : Option Int)
    (eif : Bool) (tout : Option Int) (auto_ins : Bool)
    (table user database mencoding : String) (mport : Int) (mpassword : Option String)
    (mavail : Bool) :
    (mc.has_redis_configured = false → port ≤ 0 →
      okB (wredis_init mc key key_type host port db password timeout encoding direction
        max_retry rmin rmax compress) = false)
    ∧ (key_type ≠ "LIST" → key_type ≠ "HASH" →
      okB (wredis_init mc key key_type host port db password timeout encoding direction
        max_retry rmin rmax compress) = false)
    ∧ (encoding = "" →
      okB (wredis_init mc key key_type host port db password timeout encoding direction
        max_retry rmin rmax compress) = false)
    ∧ (mc.has_es_configured = false →
      okB (wes_init mc indices doc_type appCode actions createDate eif tout max_retry
        rmin rmax auto_ins) = false)
    ∧ (mc.has_mysql_configured = false → mport ≤ 0 →
      okB (wmysql_init mc table max_retry rmin rmax host mport user mpassword database
        mencoding mavail) = false)
    ∧ ((mc.has_redis_configured = true ∨ 0 < port) →
       (key_type = "LIST" ∨ key_type = "HASH") → encoding ≠ "" →
      wredis_init mc key key_type host port db password timeout encoding direction
          max_retry rmin rmax compress
        = .ok { redis_pool_cli := none, key := key, host := host, port := port, db := db,
                password := match password with
                            | some s => if s = "" then none else some s
                            | none => none
                encoding := encoding, timeout := timeout, key_type := key_type,
                name := host ++ "_" ++ toString port ++ "->" ++ key,
                redis_write_method := none, direction := direction, max_retry := max_retry,
                random_min_sleep := rmin, random_max_sleep := rmax, compress := compress,
                is_range := key_type == "LIST" })
    ∧ (mc.has_es_configured = true →
      wes_init mc indices doc_type appCode actions createDate eif tout max_retry
          rmin rmax auto_ins
        = .ok { indices := indices, doc_type := doc_type, app_code := appCode,
                actions := actions, create_date := createDate, error_if_fail := eif,
                timeout := tout, max_retry := max_retry, random_min_sleep := rmin,
                random_max_sleep := rmax, auto_insert_createDate := auto_ins })
    ∧ ((mc.has_mysql_configured = true ∨ 0 < mport) → mavail = true →
      wmysql_init mc table max_retry rmin rmax host mport user mpassword database
          mencoding mavail
        = .ok { table := table, database := database, max_retry := max_retry,
                random_min_sleep := rmin, random_max_sleep := rmax,
                name := table ++ "->" ++ database, host := host, port := mport,
                user := user,
                password := match mpassword with
                            | some s => s
                            | none => ""
                encoding := mencoding, mysql_pool_cli := none, connection := none,
                cursor := none }) := by
  refine ⟨?_, ?_, ?_, ?_, ?_, ?_, ?_, ?_⟩
  · intro h1 h2
    simp [wredis_init, h1, h2, okB]
  · intro h1 h2
    by_cases hcfg : mc.has_redis_configured = false ∧ port ≤ 0
    · simp [wredis_init, hcfg, okB]
    · simp [wredis_init, hcfg, h1, h2, okB]
  · intro he
    by_cases hcfg : mc.has_redis_configured = false ∧ port ≤ 0
    · simp [wredis_init, hcfg, okB]
    · by_cases hkt : key_type = "LIST" ∨ key_type = "HASH"
      · simp [wredis_init, hcfg, hkt, he, okB]
      · simp [wredis_init, hcfg, hkt, okB]
  · intro h1
    simp [wes_init, h1, okB]
  · intro h1 h2
    simp [wmysql_init, h1, h2, okB]
  · intro hc hkt he
    have hcond : ¬(mc.has_redis_configured = false ∧ port ≤ 0) := by
      rcases hc with h | h
      · simp [h]
      · rintro ⟨_, hp⟩
        omega
    simp [wredis_init, hcond, hkt, he]
  · intro h1
    simp [wes_init, h1]
  · intro hc hav
    have hcond : ¬(mc.has_mysql_configured = false ∧ mport ≤ 0) := by
      rcases hc with h | h
      · simp [h]
      · rintro ⟨_, hp⟩
        omega
    simp [wmysql_init, hcond, hav]

/-- The main-config flags of the witness: everything configured. -/
def mc_w : MainConfigFlags :=
  { has_es_configured := true, has_redis_configured := true, has_mysql_configured := true,
    ini_path := "idataapi-transform.ini" }

/-- The main-config flags of the witness error cases: nothing configured. -/
def mc_w0 : MainConfigFlags :=
  { has_es_configured := false, has_redis_configured := false, has_mysql_configured := false,
    ini_path := "idataapi-transform.ini" }

theorem claim9_config_validation_witness :
    okB (wredis_init mc_w0 "k" "LIST" "h" 0 0 none 3 "utf-8" "L" 3 1 3 false) = false
    ∧ okB (wredis_init mc_w "k" "SET" "h" 6379 0 none 3 "utf-8" "L" 3 1 3 false) = false
    ∧ okB (wredis_init mc_w "k" "LIST" "h" 6379 0 none 3 "" "L" 3 1 3 false) = false
    ∧ okB (wes_init mc_w0 "i" "d" none none none true none 3 1 3 true) = false
    ∧ okB (wmysql_init mc_w0 "t" 3 1 3 "h" 0 "u" none "db" "utf8" true) = false
    ∧ wredis_init mc_w "k" "LIST" "h" 6379 0 none 3 "utf-8" "L" 3 1 3 false
        = .ok { redis_pool_cli := none, key := "k", host := "h", port := 6379, db := 0,
                password := none, encoding := "utf-8", timeout := 3, key_type := "LIST",
                name := "h" ++ "_" ++ toString (6379 : Int) ++ "->" ++ "k",
                redis_write_method := none, direction := "L", max_retry := 3,
                random_min_sleep := 1, random_max_sleep := 3, compress := false,
                is_range := ("LIST" == "LIST") }
    ∧ wes_init mc_w "i" "d" none none none true none 3 1 3 true
        = .ok { indices := "i", doc_type := "d", app_code := none, actions := none,
                create_date := none, error_if_fail := true, timeout := none,
                max_retry := 3, random_min_sleep := 1, random_max_sleep := 3,
                auto_insert_createDate := true }
    ∧ wmysql_init mc_w "t" 3 1 3 "h" 3306 "u" none "db" "utf8" true
        = .ok { table := "t", database := "db", max_retry := 3, random_min_sleep := 1,
                random_max_sleep := 3, name := "t" ++ "->" ++ "db", host := "h",
                port := 3306, user := "u", password := "", encoding := "utf8",
                mysql_pool_cli := none, connection := none, cursor := none } := by
  have h1 := (claim9_config_validation mc_w0 "k" "LIST" "h" 0 0 none 3 "utf-8" "L" 3 1 3
    false "i" "d" none none none true none true "t" "u" "db" "utf8" 0 none true).1 rfl
    (by omega)
  have h2 := (claim9_config_validation mc_w "k" "SET" "h" 6379 0 none 3 "utf-8" "L" 3 1 3
    false "i" "d" none none none true none true "t" "u" "db" "utf8" 3306 none
    true).2.1 (by decide) (by decide)
  have h3 := (claim9_config_validation mc_w "k" "LIST" "h" 6379 0 none 3 "" "L" 3 1 3
    false "i" "d" none none none true none true "t" "u" "db" "utf8" 3306 none
    true).2.2.1 rfl
  have h4 := (claim9_config_validation mc_w0 "i" "LIST" "h" 6379 0 none 3 "utf-8" "L" 3 1 3
    false "i" "d" none none none true none true "t" "u" "db" "utf8" 3306 none
    true).2.2.2.1 rfl
  have h5 := (claim9_config_validation mc_w0 "k" "LIST" "h" 6379 0 none 3 "utf-8" "L" 3 1 3
    false "i" "d" none none none true none true "t" "u" "db" "utf8" 0 none true).2.2.2.2.1
    rfl (by omega)
  have h6 := (claim9_config_validation mc_w "k" "LIST" "h" 6379 0 none 3 "utf-8" "L" 3 1 3
    false "i" "d" none none none true none true "t" "u" "db" "utf8" 3306 none
    true).2.2.2.2.2.1 (Or.inl rfl) (Or.inl rfl) (by decide)
  have h7 := (claim9_config_validation mc_w "k" "LIST" "h" 6379 0 none 3 "utf-8" "L" 3 1 3
    false "i" "d" none none none true none true "t" "u" "db" "utf8" 3306 none
    true).2.2.2.2.2.2.1 rfl
  have h8 := (claim9_config_validation mc_w "k" "LIST" "h" 6379 0 none 3 "utf-8" "L" 3 1 3
    false "i" "d" none none none true none true "t" "u" "db" "utf8" 3306 none
    true).2.2.2.2.2.2.2 (Or.inl rfl) rfl
  exact ⟨h1, h2, h3, h4, h5, h6, h7, h8⟩

end Idata
